import Mathlib

/-!
Shallow embedding of `src/app_divida_publica.py`, the Streamlit dashboard
"Análise Orçamentária do Brasil" (v7.0).

Modelling conventions:
* Python strings are modelled as `List Char` (`PyStr`); Python's
  single-character `str.replace`, `str.split`, `str.strip` and `str.lower`
  become the corresponding list operations.
* pandas data frames are modelled as a header (list of column names) plus a
  list of rows, each row an association list from column name to the raw CSV
  cell text (object dtype: every cell is kept as the text that appeared in
  the semicolon-separated file).
* Monetary values are modelled as exact rationals `ℚ`; the inputs exercised
  by the analyses below are exactly representable in binary floating point,
  so the rational model agrees with the Python float computation on them.
* `pd.to_numeric(..., errors='coerce')` is modelled as an `Option ℚ` parser
  (`none` = NaN), and `.fillna(0)` as `Option.getD 0`.
* `pd.to_datetime` on a "YYYY-MM-01" string is modelled by
  `to_datetime_ym01`, including the pandas `Timestamp` representable range
  (1677-09-21 .. 2262-04-11, nanosecond precision): outside it pandas raises
  `OutOfBoundsDatetime`, which the source catches and turns into `None`.
* `st.error` side effects are modelled by collecting the error messages in
  the result (`erros` field); the source never raises out of the functions
  modelled here.
-/

namespace AppDividaPublica

/-- Python strings modelled as lists of characters. -/
abbrev PyStr := List Char

/-- Python `str.replace('.', '')` (single-character pattern, empty
replacement): every `'.'` is removed.  Used by the numeric cleaning in
`preparar_gastos` (line 107) and `preparar_divida` (line 159). -/
def replaceDot (s : PyStr) : PyStr := s.filter (fun c => c ≠ '.')

/-- Python `str.replace(',', '.')`: every `','` becomes `'.'`.  Used by the
numeric cleaning in `preparar_gastos` (line 108) and `preparar_divida`
(line 160). -/
def replaceCommaDot (s : PyStr) : PyStr := s.map (fun c => if c = ',' then '.' else c)

/-- The two-step Brazilian-locale normalization applied to every value cell:
strip thousands separators, then turn the decimal comma into a point. -/
def normalizaNumero (s : PyStr) : PyStr := replaceCommaDot (replaceDot s)

/-- Python `str.strip()`: drop leading and trailing whitespace. -/
def pyStrip (s : PyStr) : PyStr :=
  ((s.dropWhile Char.isWhitespace).reverse.dropWhile Char.isWhitespace).reverse

/-- Python `str.lower()`. -/
def pyLower (s : PyStr) : PyStr := s.map Char.toLower

/-- Python `str.split(sep)` for a single-character separator: always returns
at least one piece, and one extra piece per separator occurrence. -/
def pySplit (sep : Char) (s : PyStr) : List PyStr :=
  match s with
  | [] => [[]]
  | c :: cs =>
      let r := pySplit sep cs
      if c = sep then [] :: r
      else (c :: r.headD []) :: r.tail

/-- Value of a digit string read in base 10 (each character assumed to be a
decimal digit; `'0'` has code point 48). -/
def digitsToNat (s : PyStr) : Nat := s.foldl (fun acc c => 10 * acc + (c.toNat - 48)) 0

/-- Python `int(s)` restricted to the shapes that occur here: an optional
sign followed by decimal digits; anything else raises, modelled as `none`. -/
def pyInt (s : PyStr) : Option Int :=
  match s with
  | [] => none
  | '-' :: rest =>
      if rest ≠ [] ∧ rest.all Char.isDigit then some (-(digitsToNat rest : Int)) else none
  | '+' :: rest =>
      if rest ≠ [] ∧ rest.all Char.isDigit then some (digitsToNat rest : Int) else none
  | _ => if s.all Char.isDigit then some (digitsToNat s : Int) else none

/-- Unsigned decimal literal: digits with at most one `'.'`; at least one
digit overall.  This is the core of the float grammar reached by
`pd.to_numeric` after the locale normalization above. -/
def parseUnsigned (s : PyStr) : Option ℚ :=
  match pySplit '.' s with
  | [i] =>
      if i ≠ [] ∧ i.all Char.isDigit then some (digitsToNat i : ℚ) else none
  | [i, f] =>
      if (i ≠ [] ∨ f ≠ []) ∧ i.all Char.isDigit ∧ f.all Char.isDigit then
        some ((digitsToNat i : ℚ) + (digitsToNat f : ℚ) / (10 : ℚ) ^ f.length)
      else none
  | _ => none

/-- `pd.to_numeric(cell, errors='coerce')` on one cell: parse an optionally
signed decimal literal, `none` (NaN) on failure. -/
def to_numeric (s : PyStr) : Option ℚ :=
  match s with
  | [] => none
  | c :: cs =>
      if c = '-' then (parseUnsigned cs).map Neg.neg
      else if c = '+' then parseUnsigned cs
      else parseUnsigned s

/-- A month-precision calendar date as produced by the date cleaning (the
source always builds the first day of the month). -/
structure Date where
  year : Nat
  month : Nat
  day : Nat
deriving DecidableEq, BEq, Repr

/-- Lexicographic order on dates, matching pandas `Timestamp` comparison. -/
def dateLe (a b : Date) : Bool :=
  if a.year = b.year then
    (if a.month = b.month then decide (a.day ≤ b.day) else decide (a.month < b.month))
  else decide (a.year < b.year)

/-- `pd.to_datetime(f"{year}-{month:02d}-01", format="%Y-%m-%d")`.  The month
argument comes from a fixed table (1..12) or is the literal 1; the call
raises `OutOfBoundsDatetime` for dates outside the nanosecond `Timestamp`
range 1677-09-21 .. 2262-04-11 (for a first-of-January/any-month day-1 date
this means years 1678 .. 2262), which the source catches (`return None`). -/
def to_datetime_ym01 (y : Int) (m : Nat) : Option Date :=
  if 1 ≤ m ∧ m ≤ 12 ∧ 1678 ≤ y ∧ y ≤ 2262 then some ⟨y.toNat, m, 1⟩ else none

/-- The fixed 12-entry lookup table of Portuguese three-letter month
abbreviations (source lines 39-43); the two-digit month strings "01".."12"
are represented by their numeric values. -/
def meses : List (PyStr × Nat) :=
  [("jan".toList, 1), ("fev".toList, 2), ("mar".toList, 3), ("abr".toList, 4),
   ("mai".toList, 5), ("jun".toList, 6), ("jul".toList, 7), ("ago".toList, 8),
   ("set".toList, 9), ("out".toList, 10), ("nov".toList, 11), ("dez".toList, 12)]

/-- `traduzir_data_pt_br` (source lines 33-72).  The `pd.isna` guard is not
modelled because every caller first applies `astype(str)`, which never
yields a missing value.  Slash-containing inputs take the first `/`-piece's
first three characters as the month key and the second piece as the year
(two digits meaning 2000+YY); otherwise a bare four-digit year becomes
January first of that year; everything else (including any exception from
`int` or `pd.to_datetime`) yields `None`. -/
def traduzir_data_pt_br (s0 : PyStr) : Option Date :=
  let s := pyLower (pyStrip s0)
  if s.contains '/' then
    let parts := pySplit '/' s
    let parte_mes := (parts.headD []).take 3
    let parte_ano := parts.getD 1 []
    match meses.lookup parte_mes with
    | none => none
    | some mes_num =>
        match pyInt parte_ano with
        | none => none
        | some n =>
            let ano_full : Int := if parte_ano.length = 2 then 2000 + n else n
            to_datetime_ym01 ano_full mes_num
  else if s.length = 4 ∧ s.all Char.isDigit then
    to_datetime_ym01 (digitsToNat s : Int) 1
  else none

/-- Python's substring test `pat in s` (used on column names). -/
def pySubstr (pat s : PyStr) : Bool := s.tails.any (fun t => pat.isPrefixOf t)

/-- A raw data frame as produced by `pd.read_csv(url, sep=';')`: the header
and one association list per row mapping column name to the raw cell text. -/
structure RawDF where
  cols : List PyStr
  rows : List (List (PyStr × PyStr))
deriving DecidableEq, Repr

/-- Cell access: a column that exists in the header but is absent from a
row's association list is a missing value, which `astype(str)` renders as
the string "nan". -/
def cellStr (r : List (PyStr × PyStr)) (c : PyStr) : PyStr :=
  (r.lookup c).getD ("nan".toList)

/-- Outcome of a cleaning function: the cleaned rows plus every message the
source passed to `st.error` along the way (the source signals schema
problems via `st.error` and returns an empty `pd.DataFrame()`; it never
raises out of these functions). -/
structure PrepResult (α : Type) where
  rows : List α
  erros : List String
deriving DecidableEq, Repr

/-- A CSV source abstracted by what each decoding attempt would yield:
`utf8` is the outcome of `pd.read_csv(url, sep=';', encoding='utf-8',
decimal=',')` (`none` means that call raises a decode or parse error) and
`latin1` the outcome the same call would have with `encoding='latin-1'`.
The second field exists so that fallback behaviour can be stated; see
`carregar_csv`. -/
structure CsvSource where
  utf8 : Option RawDF
  latin1 : Option RawDF
deriving DecidableEq, Repr

/-- Result of a load: the data frame plus any `st.error` message. -/
structure LoadResult where
  df : RawDF
  erros : List String
deriving DecidableEq, Repr

/-- `carregar_csv` (source lines 23-30): one `pd.read_csv` attempt with
`encoding='utf-8'`; any exception is caught, reported via `st.error` and
turned into an empty `pd.DataFrame()`.  No other encoding is attempted. -/
def carregar_csv (src : CsvSource) : LoadResult :=
  match src.utf8 with
  | some df => ⟨df, []⟩
  | none => ⟨⟨[], []⟩, ["Erro ao carregar CSV"]⟩

/-- Loader described by the specification's words (section 4.1): attempt
UTF-8 and, on a decode or parse failure, retry exactly once with Latin-1
before giving up on the dataset.  Stated only to be compared with
`carregar_csv`, the loader the source actually implements. -/
def carregar_csv_spec (src : CsvSource) : LoadResult :=
  match src.utf8 with
  | some df => ⟨df, []⟩
  | none =>
      match src.latin1 with
      | some df => ⟨df, []⟩
      | none => ⟨⟨[], []⟩, ["Erro ao carregar CSV"]⟩

/-- The twelve month columns expected in the spending file (line 86). -/
def col_meses : List PyStr :=
  [("Jan".toList), ("Fev".toList), ("Mar".toList), ("Abr".toList),
   ("Mai".toList), ("Jun".toList), ("Jul".toList), ("Ago".toList),
   ("Set".toList), ("Out".toList), ("Nov".toList), ("Dez".toList)]

/-- All columns `preparar_gastos` requires (lines 86-93): the twelve month
columns plus `Ano` and `Funcao`, checked in this order. -/
def required_gastos : List PyStr := col_meses ++ [("Ano".toList), ("Funcao".toList)]

/-- The month-name to month-number table of line 113 (`mapa_mes`). -/
def mapa_mes : List (PyStr × Nat) :=
  [("Jan".toList, 1), ("Fev".toList, 2), ("Mar".toList, 3), ("Abr".toList, 4),
   ("Mai".toList, 5), ("Jun".toList, 6), ("Jul".toList, 7), ("Ago".toList, 8),
   ("Set".toList, 9), ("Out".toList, 10), ("Nov".toList, 11), ("Dez".toList, 12)]

/-- One row of the long ("tidy") spending table produced by `preparar_gastos`
(one row per function and month).  `valor` is the cleaned `Valor` column,
duplicated by the source into `Valor_Realizado` (line 125); `data` is the
first-of-month date built on lines 119-122 with `errors='coerce'` (`none` =
`NaT`, the year cell interpreted as an integer). -/
structure LongRow where
  ano : PyStr
  funcao : PyStr
  mes : PyStr
  valor : ℚ
  data : Option Date
deriving DecidableEq, Repr

/-- `preparar_gastos` (source lines 81-126).  An empty frame passes through
unchanged; a missing required column is reported and yields an empty frame;
otherwise the frame is melted (month columns stacked in `col_meses` order,
keeping the original row order inside each month), each value cell is
normalized and coerced with `fillna(0)`, and a first-of-month date column is
attached. -/
def preparar_gastos (df : RawDF) : PrepResult LongRow :=
  if df.rows.isEmpty then ⟨[], []⟩
  else
    match required_gastos.find? (fun c => !(df.cols.contains c)) with
    | some c => ⟨[], ["Coluna obrigatória faltando nos gastos: " ++ String.mk c]⟩
    | none =>
        let long := col_meses.foldr (fun m acc =>
          (df.rows.map (fun r =>
            let anoCell := cellStr r ("Ano".toList)
            let mesNum := (mapa_mes.lookup m).getD 0
            { ano := anoCell
              funcao := cellStr r ("Funcao".toList)
              mes := m
              valor := (to_numeric (normalizaNumero (cellStr r m))).getD 0
              data := (pyInt anoCell).bind (fun y => to_datetime_ym01 y mesNum)
              : LongRow })) ++ acc) []
        ⟨long, []⟩

/-- Column-name heuristic of lines 133-137: the first column whose name
contains one of the three accepted spellings of the debt-date column. -/
def findDateCol (cols : List PyStr) : Option PyStr :=
  cols.find? (fun c =>
    pySubstr ("Mes do Estoque".toList) c ||
    pySubstr ("Mes_do_Estoque".toList) c ||
    pySubstr ("Mes_Estoque".toList) c)

/-- Value-column resolution of lines 157-175: exact `Valor_Estoque` first,
then the first column whose name contains `Valor` or `Estoque`. -/
def findValorCol (cols : List PyStr) : Option PyStr :=
  if cols.contains ("Valor_Estoque".toList) then some ("Valor_Estoque".toList)
  else (cols.filter (fun c =>
    pySubstr ("Valor".toList) c || pySubstr ("Estoque".toList) c)).head?

/-- Rename heuristic of lines 178-180: the first column whose name contains
`Tipo_Divida` or `Tipo de Dívida` becomes the `Tipo_Divida` column. -/
def findTipoCol (cols : List PyStr) : Option PyStr :=
  cols.find? (fun c =>
    pySubstr ("Tipo_Divida".toList) c || pySubstr ("Tipo de Dívida".toList) c)

/-- One row of the cleaned debt table produced by `preparar_divida`: rows
whose date fails to parse have been dropped (`dropna(subset=['Data'])`,
line 150), `ano` is the parsed date's year, and `tipo_divida` is present
when a debt-type column was recognized. -/
structure DividaRow where
  data : Date
  data_original : PyStr
  ano : Nat
  valor_estoque : ℚ
  tipo_divida : Option PyStr
deriving DecidableEq, Repr

/-- `preparar_divida` (source lines 128-184).  An empty frame passes
through; if no date column is recognized an error is reported with an empty
frame; otherwise each row's date cell is stripped and parsed with
`traduzir_data_pt_br` (unparseable dates drop the row), the value column is
resolved (note the date column itself contains "Estoque", so whenever a date
column was found the heuristic of lines 163-172 always resolves some value
column and the error of line 174 is unreachable) and cleaned with the same
normalization plus `fillna(0)`, and the debt-type column is renamed when
present.  No row is ever filtered by its debt-type content. -/
def preparar_divida (df : RawDF) : PrepResult DividaRow :=
  if df.rows.isEmpty then ⟨[], []⟩
  else
    match findDateCol df.cols with
    | none => ⟨[], ["Não foi encontrada coluna de mês/estoque na base da dívida."]⟩
    | some cdata =>
        match findValorCol df.cols with
        | none => ⟨[], ["Nenhuma coluna de valor da dívida encontrada."]⟩
        | some cval =>
            let tipoCol := findTipoCol df.cols
            let rows := df.rows.filterMap (fun r =>
              let dorig := pyStrip (cellStr r cdata)
              match traduzir_data_pt_br dorig with
              | none => none
              | some d =>
                  some { data := d
                         data_original := dorig
                         ano := d.year
                         valor_estoque := (to_numeric (normalizaNumero (cellStr r cval))).getD 0
                         tipo_divida := tipoCol.map (fun tc => cellStr r tc)
                         : DividaRow })
            ⟨rows, []⟩

/-- Stable insertion of one element into a list sorted by `le`. -/
def insSorted (le : α → α → Bool) (x : α) : List α → List α
  | [] => [x]
  | y :: ys => if le x y then x :: y :: ys else y :: insSorted le x ys

/-- Stable insertion sort by a boolean comparison. -/
def sortBy (le : α → α → Bool) (l : List α) : List α := l.foldr (insSorted le) []

/-- First-occurrence deduplication, keeping input order. -/
def uniqueKeys [BEq α] (l : List α) : List α :=
  l.foldl (fun acc x => if acc.contains x then acc else acc ++ [x]) []

/-- Code-point order on Python strings (the order pandas uses when sorting
string group keys). -/
def strLe : PyStr → PyStr → Bool
  | [], _ => true
  | _ :: _, [] => false
  | a :: as, b :: bs => if a = b then strLe as bs else decide (a < b)

/-- `df_gastos.groupby('Funcao')['Valor_Realizado'].sum()`: one entry per
distinct function, keys sorted ascending (pandas `groupby` sorts group keys),
each with the sum of its values. -/
def groupSumFuncao (gastos : List LongRow) : List (PyStr × ℚ) :=
  (sortBy strLe (uniqueKeys (gastos.map (fun r => r.funcao)))).map
    (fun k => (k, ((gastos.filter (fun r => r.funcao == k)).map (fun r => r.valor)).sum))

/-- `.sort_values(ascending=False)` after the grouping above.  pandas'
default quicksort leaves the order of tied values unspecified; this stable
descending sort is one valid refinement (the claims below involve no
ties). -/
def df_funcoes (gastos : List LongRow) : List (PyStr × ℚ) :=
  sortBy (fun p q => decide (q.2 ≤ p.2)) (groupSumFuncao gastos)

/-- Running cumulative sums (`cumsum`) starting from `acc`. -/
def cumsumFrom (acc : ℚ) : List ℚ → List ℚ
  | [] => []
  | x :: xs => (acc + x) :: cumsumFrom (acc + x) xs

/-- The numbers reported by the Pareto analysis text (lines 202-211). -/
structure ParetoReport where
  total_funcoes : Nat
  funcoes_80 : Nat
  top_1 : PyStr
  top_1_perc : ℚ
deriving DecidableEq, Repr

/-- The Pareto branch of `gerar_insight_avancado` (lines 193-216): group and
sort the spending by function, return `none` for the "Dados de gastos
zerados." message when the grand total is zero, and otherwise report the
number of functions, the count `(cumulative share ≤ 80).count() + 1`, and
the top function with its share of the total. -/
def pareto_branch (gastos : List LongRow) : Option ParetoReport :=
  let fns := df_funcoes gastos
  let total_gasto := (fns.map (fun p => p.2)).sum
  if total_gasto = 0 then none
  else
    let df_perc := (cumsumFrom 0 (fns.map (fun p => p.2))).map
      (fun v => v / total_gasto * 100)
    some { total_funcoes := fns.length
           funcoes_80 := (df_perc.filter (fun p => decide (p ≤ 80))).length + 1
           top_1 := (fns.headD ([], 0)).1
           top_1_perc := (fns.headD ([], 0)).2 / total_gasto * 100 }

/-- Maximum of the `Data` column (`df_divida['Data'].max()`) over a
nonempty cleaned debt table. -/
def maxData (d : DividaRow) (ds : List DividaRow) : Date :=
  ds.foldl (fun m r => if dateLe m r.data then r.data else m) d.data

/-- Outcome of the sustainability branch, keeping the quantities that the
report text interpolates. -/
inductive SustentResult where
  | insuficiente (msg : String)
  | relatorio (data_max : Date) (divida_total gasto_total_anual razao : ℚ)
  | gastos_zerados (msg : String)
deriving DecidableEq, Repr

/-- The sustainability branch of `gerar_insight_avancado` (lines 218-238):
an empty debt table yields the "Dados de dívida insuficientes." message;
otherwise the debt stock is summed over the rows carrying the most recent
date and divided by the total spending, unless that total is not positive,
in which case the "gastos anuais zerados" message is returned instead of
attempting the division. -/
def sustentabilidade_branch (gastos : List LongRow) (divida : List DividaRow) :
    SustentResult :=
  match divida with
  | [] => .insuficiente "Dados de dívida insuficientes."
  | d :: ds =>
      let data_max := maxData d ds
      let divida_total :=
        (((d :: ds).filter (fun r => r.data == data_max)).map
          (fun r => r.valor_estoque)).sum
      let gasto_total_anual := (gastos.map (fun r => r.valor)).sum
      if 0 < gasto_total_anual then
        .relatorio data_max divida_total gasto_total_anual (divida_total / gasto_total_anual)
      else
        .gastos_zerados "Não foi possível calcular: gastos anuais zerados ou inválidos."

/-- The ranking branch of `gerar_insight_avancado` (lines 240-249): ranked
(function, value, percentage) entries, keeping only shares above 0.1%.
When the grand total is zero the source's division raises and is caught
(line 252); that degenerate case is not modelled here and no claim uses
it. -/
def listagem_branch (gastos : List LongRow) : List (PyStr × ℚ × ℚ) :=
  let rank := df_funcoes gastos
  let total := (rank.map (fun p => p.2)).sum
  rank.filterMap (fun p =>
    let perc := p.2 / total * 100
    if decide ((1 : ℚ) / 10 < perc) then some (p.1, p.2, perc) else none)

/-- Which analysis `gerar_insight_avancado` (lines 191-253) runs, decided by
substring tests on the selected option label, plus the fallback answer. -/
inductive Insight where
  | pareto (r : Option ParetoReport)
  | sustentabilidade (r : SustentResult)
  | listagem (r : List (PyStr × ℚ × ℚ))
  | selecione
deriving DecidableEq, Repr

/-- Dispatcher of `gerar_insight_avancado`: the three analyses are selected
by testing whether the question contains "Pareto", "Sustentabilidade" or
"Listagem dos Gastos", in that order. -/
def gerar_insight_avancado (pergunta : PyStr) (gastos : List LongRow)
    (divida : List DividaRow) : Insight :=
  if pySubstr ("Pareto".toList) pergunta then .pareto (pareto_branch gastos)
  else if pySubstr ("Sustentabilidade".toList) pergunta then
    .sustentabilidade (sustentabilidade_branch gastos divida)
  else if pySubstr ("Listagem dos Gastos".toList) pergunta then
    .listagem (listagem_branch gastos)
  else .selecione

/-- The debt-history aggregation of the second tab (line 334):
`df_divida.groupby('Data')['Valor_Estoque'].sum()`, keys sorted ascending. -/
def estoque_por_data (divida : List DividaRow) : List (Date × ℚ) :=
  (sortBy dateLe (uniqueKeys (divida.map (fun r => r.data)))).map
    (fun d => (d, ((divida.filter (fun r => r.data == d)).map
      (fun r => r.valor_estoque)).sum))

/-- A Brazilian-locale numeric string: digit groups joined by `'.'`
thousands separators, then the decimal comma and the fractional digits
(e.g. `brazilian ["1","234","567"] "89"` is "1.234.567,89").  This renders
the input format the specification describes; it is not part of the
source. -/
def brazilian : List PyStr → PyStr → PyStr
  | [], frac => ',' :: frac
  | [g], frac => g ++ (',' :: frac)
  | g :: g2 :: gs, frac => g ++ ('.' :: brazilian (g2 :: gs) frac)

/-- The two-character decimal rendering of `n % 100` (the YY of "mon/YY"). -/
def twoDigits (n : Nat) : PyStr :=
  [Char.ofNat (48 + n / 10 % 10), Char.ofNat (48 + n % 10)]

/-- The four-character decimal rendering of `n % 10000` (a bare "YYYY"). -/
def fourDigits (n : Nat) : PyStr :=
  [Char.ofNat (48 + n / 1000 % 10), Char.ofNat (48 + n / 100 % 10),
   Char.ofNat (48 + n / 10 % 10), Char.ofNat (48 + n % 10)]

/-- The twelve numeric month strings "01" .. "12" of the "MM/YYYY" surface
format described by the specification. -/
def mesesNumericos : List PyStr :=
  [("01".toList), ("02".toList), ("03".toList), ("04".toList),
   ("05".toList), ("06".toList), ("07".toList), ("08".toList),
   ("09".toList), ("10".toList), ("11".toList), ("12".toList)]

/-- Spending rows whose grouped function totals are A:80, B:15, C:5 (the
table of the Pareto testable property). -/
def c1gastos : List LongRow :=
  [{ ano := "2025".toList, funcao := "A".toList, mes := "Jan".toList, valor := 80, data := none },
   { ano := "2025".toList, funcao := "B".toList, mes := "Jan".toList, valor := 15, data := none },
   { ano := "2025".toList, funcao := "C".toList, mes := "Jan".toList, valor := 5, data := none }]

/-- A raw debt table with three rows for the same month: Internal 400,
External 200, and an aggregate Total 600 (the de-duplication testable
property). -/
def c2df : RawDF :=
  { cols := [("Mes do Estoque".toList), ("Valor_Estoque".toList), ("Tipo_Divida".toList)],
    rows :=
      [[(("Mes do Estoque".toList), ("jan/23".toList)),
        (("Valor_Estoque".toList), ("400".toList)),
        (("Tipo_Divida".toList), ("Internal".toList))],
       [(("Mes do Estoque".toList), ("jan/23".toList)),
        (("Valor_Estoque".toList), ("200".toList)),
        (("Tipo_Divida".toList), ("External".toList))],
       [(("Mes do Estoque".toList), ("jan/23".toList)),
        (("Valor_Estoque".toList), ("600".toList)),
        (("Tipo_Divida".toList), ("Total".toList))]] }

/-- A raw spending table with every required column and one row whose `Jan`
cell is the unparseable text "abc" (the other month cells are missing, which
`astype(str)` renders as "nan", equally unparseable). -/
def c3df : RawDF :=
  { cols := required_gastos,
    rows := [[(("Ano".toList), ("2025".toList)),
              (("Funcao".toList), ("X".toList)),
              (("Jan".toList), ("abc".toList))]] }

/-- A CSV source whose UTF-8 read fails while a Latin-1 read would yield a
one-row table. -/
def c4src : CsvSource :=
  { utf8 := none,
    latin1 := some { cols := [("A".toList)], rows := [[(("A".toList), ("1".toList))]] } }

/-- Spending rows totalling 100 (60 + 40). -/
def c8gastos : List LongRow :=
  [{ ano := "2025".toList, funcao := "A".toList, mes := "Jan".toList, valor := 60, data := none },
   { ano := "2025".toList, funcao := "B".toList, mes := "Jan".toList, valor := 40, data := none }]

/-- Debt rows with stock 50 at 2022-12 and 600 at the most recent date
2023-01. -/
def c8divida : List DividaRow :=
  [{ data := ⟨2022, 12, 1⟩, data_original := "dez/22".toList, ano := 2022,
     valor_estoque := 50, tipo_divida := none },
   { data := ⟨2023, 1, 1⟩, data_original := "jan/23".toList, ano := 2023,
     valor_estoque := 600, tipo_divida := none }]

/-- A raw table with a single unrecognizable column and one row: every
required spending column is missing, and no debt date column matches. -/
def c9df : RawDF := { cols := [("X".toList)], rows := [[(("X".toList), ("1".toList))]] }

/-- C4 counterexample: a source whose UTF-8 read fails but which is
perfectly readable as Latin-1 still produces the empty data frame with an
error message — the loader described by the spec (UTF-8, then one Latin-1
retry) would have produced the Latin-1 table, so the two loaders differ. -/
theorem C4_counterexample : carregar_csv c4src ≠ carregar_csv_spec c4src := by decide

/-- C4 (amended): `carregar_csv` makes a single UTF-8 read attempt; on any
decode or parse failure it reports an error and returns an empty data frame
without ever retrying under Latin-1 (its result does not depend on what a
Latin-1 read would give). -/
theorem C4_thm (src : CsvSource) (h : src.utf8 = none) :
    carregar_csv src = ⟨⟨[], []⟩, ["Erro ao carregar CSV"]⟩ := by
  simp [carregar_csv, h]

/-- C4 witness: the amended theorem applied to the concrete failing
source. -/
theorem C4_witness : carregar_csv c4src = ⟨⟨[], []⟩, ["Erro ao carregar CSV"]⟩ :=
  C4_thm c4src rfl

/-- C5 counterexample: the numeric date "01/2023" (a valid MM/YYYY month) is
not accepted by `traduzir_data_pt_br`: it yields no date, so its row is
dropped, contradicting the claim that every numeric MM/YYYY is accepted. -/
theorem C5_counterexample : traduzir_data_pt_br ("01/2023".toList) = none := by decide

/-- C5 (amended): date normalization rejects the numeric "MM/YYYY" surface
format — for every two-digit month MM in 01..12 the string "MM/2023" parses
to no date (the month key is looked up in the Portuguese abbreviation table,
which contains no numeric entries), so such rows are dropped. -/
theorem C5_thm (mm : PyStr) (h : mm ∈ mesesNumericos) :
    traduzir_data_pt_br (mm ++ ('/' :: ("2023".toList))) = none := by
  fin_cases h <;> decide

/-- C5 witness: the amended theorem at MM = "01". -/
theorem C5_witness : traduzir_data_pt_br (("01".toList) ++ ('/' :: ("2023".toList))) = none :=
  C5_thm ("01".toList) (by decide)

theorem rows_isEmpty_eq_false {α : Type} {l : List α} (h : l ≠ []) : l.isEmpty = false := by
  cases l with
  | nil => exact absurd rfl h
  | cons a t => rfl

theorem preparar_gastos_schema_err (df : RawDF) (hisE : df.rows.isEmpty = false)
    (c : PyStr) (hc : required_gastos.find? (fun c => !(df.cols.contains c)) = some c) :
    preparar_gastos df = ⟨[], ["Coluna obrigatória faltando nos gastos: " ++ String.mk c]⟩ := by
  unfold preparar_gastos
  rw [hisE, if_neg (by decide : ¬(false = true)), hc]

theorem preparar_divida_date_err (df : RawDF) (hisE : df.rows.isEmpty = false)
    (hdc : findDateCol df.cols = none) :
    preparar_divida df = ⟨[], ["Não foi encontrada coluna de mês/estoque na base da dívida."]⟩ := by
  unfold preparar_divida
  rw [hisE, if_neg (by decide : ¬(false = true)), hdc]

/-- C9: whenever a required spending column is unresolvable, or no debt date
column is recognized, the corresponding cleaner returns an empty table and
signals the schema mismatch through an `st.error` message; no exception
escapes (the functions are total). -/
theorem C9_thm :
    (∀ df : RawDF, df.rows ≠ [] →
      (∃ c ∈ required_gastos, df.cols.contains c = false) →
        (preparar_gastos df).rows = [] ∧ (preparar_gastos df).erros ≠ []) ∧
    (∀ df : RawDF, df.rows ≠ [] → findDateCol df.cols = none →
        (preparar_divida df).rows = [] ∧ (preparar_divida df).erros ≠ []) := by
  constructor
  · rintro df hne ⟨c, hc, hcon⟩
    have hsome : (required_gastos.find? (fun c => !(df.cols.contains c))).isSome := by
      rw [List.find?_isSome]
      exact ⟨c, hc, by rw [hcon]; rfl⟩
    obtain ⟨c', hc'⟩ := Option.isSome_iff_exists.mp hsome
    rw [preparar_gastos_schema_err df (rows_isEmpty_eq_false hne) c' hc']
    exact ⟨rfl, by simp⟩
  · intro df hne hdc
    rw [preparar_divida_date_err df (rows_isEmpty_eq_false hne) hdc]
    exact ⟨rfl, by simp⟩

/-- C9 witness: both halves of the theorem applied to a one-row table whose
single column "X" matches nothing. -/
theorem C9_witness :
    ((preparar_gastos c9df).rows = [] ∧ (preparar_gastos c9df).erros ≠ []) ∧
    ((preparar_divida c9df).rows = [] ∧ (preparar_divida c9df).erros ≠ []) :=
  ⟨C9_thm.1 c9df (by decide) ⟨("Jan".toList), by decide, by decide⟩,
   C9_thm.2 c9df (by decide) (by decide)⟩

/-- C10 counterexample: the four-digit-digit year "9999" is not turned into
January 1, 9999 — `pd.to_datetime` raises `OutOfBoundsDatetime` for years
outside the `Timestamp` range, the exception is caught, and the row is
dropped; the claim's "every 4-character all-digit input" fails here. -/
theorem C10_counterexample : traduzir_data_pt_br ("9999".toList) = none := by decide

set_option maxRecDepth 100000 in
theorem traduzir_fourDigits_aux :
    ∀ k : Fin 585, traduzir_data_pt_br (fourDigits (1678 + k.val)) =
      some ⟨1678 + k.val, 1, 1⟩ := by decide

/-- C10 (amended): for every four-digit all-digit input whose value lies in
the pandas-representable year range 1678..2262, `traduzir_data_pt_br`
returns January 1 of that year (so such bare-year rows are kept); outside
that range the conversion raises and the input is rejected. -/
theorem C10_thm (n : Nat) (h1 : 1678 ≤ n) (h2 : n ≤ 2262) :
    traduzir_data_pt_br (fourDigits n) = some ⟨n, 1, 1⟩ := by
  have hk : n - 1678 < 585 := by omega
  have h := traduzir_fourDigits_aux ⟨n - 1678, hk⟩
  have he : 1678 + (n - 1678) = n := by omega
  rw [he] at h
  exact h

/-- C10 witness: the amended theorem at the year 2023. -/
theorem C10_witness : traduzir_data_pt_br (fourDigits 2023) = some ⟨2023, 1, 1⟩ :=
  C10_thm 2023 (by norm_num) (by norm_num)

set_option maxRecDepth 1000000 in
/-- C7: for every entry (mon, m) of the fixed Portuguese month table and
every two-digit year YY, the string "mon/YY" is parsed to the date with
month m and year 2000 + YY (day 1). -/
theorem C7_thm (p : PyStr × Nat) (hp : p ∈ meses) :
    ∀ n : Fin 100, traduzir_data_pt_br (p.1 ++ ('/' :: twoDigits n.val)) =
      some ⟨2000 + n.val, p.2, 1⟩ := by
  fin_cases hp <;> decide

/-- C7 witness: the table entry ("jan", 1) with YY = 23 gives 2023-01. -/
theorem C7_witness :
    traduzir_data_pt_br ((("jan".toList, 1) : PyStr × Nat).1 ++
      ('/' :: twoDigits ((23 : Fin 100)).val)) =
      some ⟨2000 + ((23 : Fin 100)).val, (("jan".toList, 1) : PyStr × Nat).2, 1⟩ :=
  C7_thm ("jan".toList, 1) (by decide) 23

/-- C3 counterexample: in a table whose `Jan` cell is the unparseable text
"abc", the cleaned long table still contains the (X, Jan) row — with the
substituted value 0 (`fillna(0)`) — and all 12 month rows are present, so
the owning row is kept, not dropped. -/
theorem C3_counterexample :
    (preparar_gastos c3df).rows.length = 12 ∧
    ((preparar_gastos c3df).rows.find? (fun r => r.mes == ("Jan".toList))).map
      (fun r => r.valor) = some 0 ∧
    (preparar_gastos c3df).erros = [] := by decide

/-- C3 (amended): a value string that fails to parse becomes missing and is
then substituted by 0 (`errors='coerce'` followed by `fillna(0)`): the
owning row is kept in the cleaned table.  No row of a schema-complete
spending table is ever dropped — the long table always has exactly 12 rows
per input row — and no error is signalled, so a row-level failure never
aborts the load. -/
theorem C3_thm (df : RawDF) (hne : df.rows ≠ [])
    (hcols : ∀ c ∈ required_gastos, df.cols.contains c = true) :
    (preparar_gastos df).rows.length = 12 * df.rows.length ∧
    (preparar_gastos df).erros = [] := by
  have hfind : required_gastos.find? (fun c => !(df.cols.contains c)) = none := by
    apply List.find?_eq_none.mpr
    intro c hc
    rw [hcols c hc]
    decide
  unfold preparar_gastos
  rw [rows_isEmpty_eq_false hne, if_neg (by decide : ¬(false = true)), hfind]
  constructor
  · simp [col_meses]
    omega
  · rfl

/-- C3 witness: the amended theorem at the concrete one-row table with the
unparseable `Jan` cell. -/
theorem C3_witness :
    (preparar_gastos c3df).rows.length = 12 * c3df.rows.length ∧
    (preparar_gastos c3df).erros = [] :=
  C3_thm c3df (by decide) (by decide)

/-- C1 counterexample: on the table with grouped totals A:80, B:15, C:5 the
Pareto analysis does not report 1 — A's cumulative share is exactly 80%, so
it is counted by `df_perc <= 80` and the unconditional `+ 1` then reports 2.
(All quantities here are exact in binary floating point, so the rational
model agrees with the Python computation.) -/
theorem C1_counterexample :
    (pareto_branch c1gastos).map (fun r => r.funcoes_80) ≠ some 1 := by
  norm_num +decide [pareto_branch, df_funcoes, groupSumFuncao, sortBy, insSorted,
    uniqueKeys, strLe, cumsumFrom, c1gastos]

/-- C1 (amended): for the spending table with grouped function totals A:80,
B:15, C:5, the Pareto analysis reports the count of functions needed for 80%
of the total as 2 (one more than the number of functions whose cumulative
share is at most 80%, the boundary function A being counted on both sides),
and reports A as the top function with a share of exactly 80%. -/
theorem C1_thm :
    (pareto_branch c1gastos).map (fun r => r.funcoes_80) = some 2 ∧
    (pareto_branch c1gastos).map (fun r => r.top_1) = some ("A".toList) ∧
    (pareto_branch c1gastos).map (fun r => r.top_1_perc) = some 80 := by
  norm_num +decide [pareto_branch, df_funcoes, groupSumFuncao, sortBy, insSorted,
    uniqueKeys, strLe, cumsumFrom, c1gastos]

theorem c2_rows_eq :
    (preparar_divida c2df).rows =
      [{ data := ⟨2023, 1, 1⟩, data_original := "jan/23".toList, ano := 2023,
         valor_estoque := 400, tipo_divida := some ("Internal".toList) },
       { data := ⟨2023, 1, 1⟩, data_original := "jan/23".toList, ano := 2023,
         valor_estoque := 200, tipo_divida := some ("External".toList) },
       { data := ⟨2023, 1, 1⟩, data_original := "jan/23".toList, ano := 2023,
         valor_estoque := 600, tipo_divida := some ("Total".toList) }] := by decide

/-- C2 counterexample: for the debt rows Internal:400, External:200,
Total:600 on the same month, the aggregated stock for that month is not 600
— no row containing "Total" is excluded anywhere in the pipeline, so the
subtotal is double-counted. -/
theorem C2_counterexample :
    ((estoque_por_data (preparar_divida c2df).rows).lookup (⟨2023, 1, 1⟩ : Date))
      ≠ some 600 := by
  rw [c2_rows_eq]
  norm_num +decide [estoque_por_data, sortBy, insSorted, uniqueKeys, dateLe]

/-- C2 (amended): rows whose debt-type field contains "Total" are NOT
excluded before summation over a date: all three rows — including
(type="Total", value=600) — survive `preparar_divida`, and the aggregated
stock for the shared month is 1200 (= 400 + 200 + 600), i.e. the subtotal
row is double-counted. -/
theorem C2_thm :
    (preparar_divida c2df).rows.map (fun r => r.tipo_divida) =
      [some ("Internal".toList), some ("External".toList), some ("Total".toList)] ∧
    ((estoque_por_data (preparar_divida c2df).rows).lookup (⟨2023, 1, 1⟩ : Date))
      = some 1200 := by
  rw [c2_rows_eq]
  norm_num +decide [estoque_por_data, sortBy, insSorted, uniqueKeys, dateLe]

/-- C8: the sustainability branch sums the debt stock carried by the most
recent date (600, ignoring the older 50) and divides by the total annual
spending (100), giving the ratio 6; and whenever the spending total is zero
(with a nonempty debt table) it returns the "gastos anuais zerados"
message value instead of attempting the division. -/
theorem C8_thm :
    sustentabilidade_branch c8gastos c8divida = .relatorio ⟨2023, 1, 1⟩ 600 100 6 ∧
    ∀ (gastos : List LongRow) (d : DividaRow) (ds : List DividaRow),
      (gastos.map (fun r => r.valor)).sum = 0 →
        sustentabilidade_branch gastos (d :: ds) =
          .gastos_zerados "Não foi possível calcular: gastos anuais zerados ou inválidos." := by
  constructor
  · norm_num +decide [sustentabilidade_branch, maxData, dateLe, c8gastos, c8divida]
  · intro gastos d ds hsum
    simp [sustentabilidade_branch, hsum]

/-- C8 witness: the two halves at concrete inputs — the 600/100 table pair,
and an empty spending table (sum 0) against the same debt rows. -/
theorem C8_witness :
    sustentabilidade_branch c8gastos c8divida = .relatorio ⟨2023, 1, 1⟩ 600 100 6 ∧
    sustentabilidade_branch ([] : List LongRow) c8divida =
      .gastos_zerados "Não foi possível calcular: gastos anuais zerados ou inválidos." :=
  ⟨C8_thm.1, C8_thm.2 [] _ _ (by simp)⟩


theorem replaceDot_cons (c : Char) (s : PyStr) :
    replaceDot (c :: s) = if c = '.' then replaceDot s else c :: replaceDot s := by
  by_cases hc : c = '.' <;> simp [replaceDot, List.filter_cons, hc]

theorem replaceDot_digits (s : PyStr) (h : ∀ c ∈ s, c.isDigit = true) :
    replaceDot s = s :=
  List.filter_eq_self.mpr fun c hc => by
    have hd := h c hc
    simp only [ne_eq, decide_eq_true_eq]
    intro heq
    subst heq
    exact absurd hd (by decide)

theorem replaceCommaDot_digits (s : PyStr) (h : ∀ c ∈ s, c.isDigit = true) :
    replaceCommaDot s = s := by
  induction s with
  | nil => rfl
  | cons c cs ih =>
      have hc : ¬c = ',' := by
        intro heq
        subst heq
        exact absurd (h ',' (List.mem_cons_self _ _)) (by decide)
      simp only [replaceCommaDot, List.map_cons, if_neg hc]
      have := ih (fun d hd => h d (List.mem_cons_of_mem _ hd))
      simpa [replaceCommaDot] using this

theorem replaceDot_brazilian (groups : List PyStr) (frac : PyStr)
    (hg : ∀ g ∈ groups, ∀ c ∈ g, c.isDigit = true)
    (hf : ∀ c ∈ frac, c.isDigit = true) :
    replaceDot (brazilian groups frac) = groups.flatten ++ (',' :: frac) := by
  induction groups with
  | nil =>
      simp only [brazilian, List.flatten_nil, List.nil_append]
      rw [replaceDot_cons, if_neg (by decide), replaceDot_digits frac hf]
  | cons g gs ih =>
      cases gs with
      | nil =>
          simp only [brazilian]
          rw [replaceDot, List.filter_append, ← replaceDot, ← replaceDot]
          rw [replaceDot_digits g (hg g (List.mem_cons_self _ _))]
          rw [replaceDot_cons, if_neg (by decide), replaceDot_digits frac hf]
          simp
      | cons g2 gs2 =>
          simp only [brazilian]
          rw [replaceDot, List.filter_append, ← replaceDot, ← replaceDot]
          rw [replaceDot_digits g (hg g (List.mem_cons_self _ _))]
          rw [replaceDot_cons, if_pos rfl]
          rw [ih (fun g' hg' => hg g' (List.mem_cons_of_mem _ hg'))]
          simp

theorem normalizaNumero_brazilian (groups : List PyStr) (frac : PyStr)
    (hg : ∀ g ∈ groups, ∀ c ∈ g, c.isDigit = true)
    (hf : ∀ c ∈ frac, c.isDigit = true) :
    normalizaNumero (brazilian groups frac) = groups.flatten ++ ('.' :: frac) := by
  have hflat : ∀ c ∈ groups.flatten, c.isDigit = true := by
    intro c hc
    rw [List.mem_flatten] at hc
    obtain ⟨l, hl, hcl⟩ := hc
    exact hg l hl c hcl
  unfold normalizaNumero
  rw [replaceDot_brazilian groups frac hg hf]
  rw [replaceCommaDot, List.map_append, ← replaceCommaDot, ← replaceCommaDot]
  rw [replaceCommaDot_digits _ hflat]
  simp only [replaceCommaDot, List.map_cons, if_pos rfl]
  rw [← replaceCommaDot, replaceCommaDot_digits frac hf]
  simp

theorem pySplit_no_sep (sep : Char) (s : PyStr) (h : sep ∉ s) :
    pySplit sep s = [s] := by
  induction s with
  | nil => rfl
  | cons c cs ih =>
      have hc : ¬c = sep := fun heq => h (heq ▸ List.mem_cons_self _ _)
      simp only [pySplit, if_neg hc, ih (fun hm => h (List.mem_cons_of_mem _ hm))]
      rfl

theorem pySplit_mid (sep : Char) (a b : PyStr) (ha : sep ∉ a) :
    pySplit sep (a ++ (sep :: b)) = a :: pySplit sep b := by
  induction a with
  | nil => simp [pySplit]
  | cons c cs ih =>
      have hc : ¬c = sep := fun heq => ha (heq ▸ List.mem_cons_self _ _)
      simp only [List.cons_append, pySplit, if_neg hc, List.append_eq,
        ih (fun hm => ha (List.mem_cons_of_mem _ hm))]
      rfl

theorem parseUnsigned_concat (i f : PyStr)
    (hi : ∀ c ∈ i, c.isDigit = true) (hfd : ∀ c ∈ f, c.isDigit = true)
    (hne : i ≠ []) :
    parseUnsigned (i ++ ('.' :: f)) =
      some ((digitsToNat i : ℚ) + (digitsToNat f : ℚ) / (10 : ℚ) ^ f.length) := by
  have hdi : '.' ∉ i := fun hm => absurd (hi '.' hm) (by decide)
  have hdf : '.' ∉ f := fun hm => absurd (hfd '.' hm) (by decide)
  have h1 : pySplit '.' (i ++ ('.' :: f)) = [i, f] := by
    rw [pySplit_mid '.' i f hdi, pySplit_no_sep '.' f hdf]
  simp only [parseUnsigned, h1]
  rw [if_pos ⟨Or.inl hne, List.all_eq_true.mpr hi, List.all_eq_true.mpr hfd⟩]

theorem to_numeric_not_sign (c : Char) (cs : PyStr) (h1 : ¬c = '-') (h2 : ¬c = '+') :
    to_numeric (c :: cs) = parseUnsigned (c :: cs) := by
  simp [to_numeric, h1, h2]

/-- C6: normalizing any Brazilian-locale numeric string (digit groups
joined by "." thousands separators, decimal comma, fractional digits) yields
exactly the corresponding decimal number: the parsed value is the integer
part's digits followed by the fraction digits over the matching power of
ten.  Moreover stripping "." from a string that contains no "." is a no-op
(the replacement targets literal characters, not positions). -/
theorem C6_thm (groups : List PyStr) (frac : PyStr)
    (hg : ∀ g ∈ groups, ∀ c ∈ g, c.isDigit = true)
    (hf : ∀ c ∈ frac, c.isDigit = true)
    (hne : groups.flatten ≠ []) :
    to_numeric (normalizaNumero (brazilian groups frac)) =
      some ((digitsToNat groups.flatten : ℚ) +
        (digitsToNat frac : ℚ) / (10 : ℚ) ^ frac.length) ∧
    ∀ s : PyStr, '.' ∉ s → replaceDot s = s := by
  constructor
  · have hflat : ∀ c ∈ groups.flatten, c.isDigit = true := by
      intro c hc
      rw [List.mem_flatten] at hc
      obtain ⟨l, hl, hcl⟩ := hc
      exact hg l hl c hcl
    rw [normalizaNumero_brazilian groups frac hg hf]
    obtain ⟨h0, t, hft⟩ := List.exists_cons_of_ne_nil hne
    rw [hft]
    rw [hft] at hflat
    have hd0 : h0.isDigit = true := hflat h0 (List.mem_cons_self _ _)
    have hm : ¬h0 = '-' := fun heq => by subst heq; exact absurd hd0 (by decide)
    have hp : ¬h0 = '+' := fun heq => by subst heq; exact absurd hd0 (by decide)
    rw [List.cons_append, to_numeric_not_sign h0 _ hm hp, ← List.cons_append]
    exact parseUnsigned_concat (h0 :: t) frac hflat hf (by simp)
  · intro s hs
    exact List.filter_eq_self.mpr fun c hc => by
      simp only [ne_eq, decide_eq_true_eq]
      intro heq
      subst heq
      exact hs hc


/-- C6 witness: the theorem at "1.234.567,89" (value 1234567.89), and the
no-op at the separator-free "1234". -/
theorem C6_witness :
    to_numeric (normalizaNumero (brazilian
        [("1".toList), ("234".toList), ("567".toList)] ("89".toList))) =
      some ((digitsToNat (([("1".toList), ("234".toList), ("567".toList)] :
          List PyStr).flatten) : ℚ) +
        (digitsToNat ("89".toList) : ℚ) / (10 : ℚ) ^ (("89".toList).length)) ∧
    replaceDot ("1234".toList) = "1234".toList :=
  ⟨(C6_thm [("1".toList), ("234".toList), ("567".toList)] ("89".toList)
      (by decide) (by decide) (by decide)).1,
   (C6_thm [("1".toList), ("234".toList), ("567".toList)] ("89".toList)
      (by decide) (by decide) (by decide)).2 ("1234".toList) (by decide)⟩

end AppDividaPublica
